import Mathlib

/-!
Shallow embedding of `server.js` (twitter-license-server): a license-key
server backed by five PostgreSQL tables (`license_keys`, `access_logs`,
`key_ips`, `users`, `guest_users`).  Each table is modelled as a list of
rows, the whole database as a `ServerState`, and every route handler as a
pure function `ServerState → inputs → response × ServerState`.
Timestamps (`NOW()`) are passed explicitly as `Nat` values; the client
network address is a `String`.  A missing JSON body field and the empty
string are collapsed to `""`, exactly as JavaScript truthiness tests
(`if (!licenseKey)`, `if (username && password)`) do before any other use
of those fields.
-/

namespace LicenseServer

/-- Row of `license_keys`: primary key `licenseKey`, `owner NOT NULL`,
`active`, `created_at`, nullable `last_used`, `last_heartbeat`, `last_ip`. -/
structure LicenseKey where
  licenseKey : String
  owner : String
  active : Bool
  createdAt : Nat
  lastUsed : Option Nat
  lastHeartbeat : Option Nat
  lastIp : Option String
deriving Repr, DecidableEq

/-- Row of `access_logs` (the serial `id` column is not modelled;
insertion order of the list plays its role). -/
structure AccessEvent where
  licenseKey : String
  action : String
  status : String
  ipAddress : Option String
  timestamp : Nat
deriving Repr, DecidableEq

/-- Row of `key_ips`: one sighting per `(license_key, ip_address)` pair
(`UNIQUE(license_key, ip_address)`), with `first_seen` and `last_seen`. -/
structure Sighting where
  licenseKey : String
  ipAddress : String
  firstSeen : Nat
  lastSeen : Nat
deriving Repr, DecidableEq

/-- Row of `users`: unique `username`, plaintext `password`, `role`
constrained to `creator`/`admin`/`va`, nullable `license_key`. -/
structure UserRow where
  username : String
  password : String
  role : String
  licenseKey : Option String
  createdAt : Nat
  lastLogin : Option Nat
deriving Repr, DecidableEq

/-- Row of the legacy `guest_users` table. -/
structure GuestRow where
  username : String
  password : String
  createdAt : Nat
  lastLogin : Option Nat
deriving Repr, DecidableEq

/-- The whole database. -/
structure ServerState where
  licenseKeys : List LicenseKey
  accessLogs : List AccessEvent
  keyIps : List Sighting
  users : List UserRow
  guestUsers : List GuestRow
deriving Repr, DecidableEq

/-- `SELECT * FROM license_keys WHERE license_key = $1` (primary key:
at most one row; the list model returns the first match). -/
def findKey (st : ServerState) (k : String) : Option LicenseKey :=
  st.licenseKeys.find? (fun r => r.licenseKey == k)

/-- `logAccess`: `INSERT INTO access_logs (license_key, action, status,
ip_address) VALUES ($1,$2,$3,$4)`, timestamp defaulting to `NOW()`. -/
def logAccess (st : ServerState) (licenseKey action status : String)
    (ipAddress : Option String) (now : Nat) : ServerState :=
  { st with accessLogs :=
      st.accessLogs ++ [⟨licenseKey, action, status, ipAddress, now⟩] }

/-- `trackIP`: `INSERT INTO key_ips ... VALUES ($1,$2,NOW(),NOW())
ON CONFLICT (license_key, ip_address) DO UPDATE SET last_seen = NOW()`. -/
def trackIP (st : ServerState) (licenseKey ipAddress : String) (now : Nat) :
    ServerState :=
  if st.keyIps.any (fun s => s.licenseKey == licenseKey && s.ipAddress == ipAddress) then
    { st with keyIps := st.keyIps.map (fun s =>
        if s.licenseKey == licenseKey && s.ipAddress == ipAddress then
          { s with lastSeen := now }
        else s) }
  else
    { st with keyIps := st.keyIps ++ [⟨licenseKey, ipAddress, now, now⟩] }

/-- Response body of `POST /api/verify`. -/
structure VerifyResp where
  status : Nat
  valid : Bool
  message : String
  owner : Option String
deriving Repr, DecidableEq

/-- `UPDATE license_keys SET last_used = NOW() WHERE license_key = $1`. -/
def updateLastUsed (st : ServerState) (k : String) (now : Nat) : ServerState :=
  { st with licenseKeys := st.licenseKeys.map (fun r =>
      if r.licenseKey == k then { r with lastUsed := some now } else r) }

/-- Handler of `POST /api/verify`. -/
def verify (st : ServerState) (licenseKey : String) (now : Nat) :
    VerifyResp × ServerState :=
  if licenseKey = "" then
    (⟨400, false, "Clé de licence manquante", none⟩, st)
  else
    match findKey st licenseKey with
    | none =>
        (⟨200, false, "Clé de licence invalide", none⟩,
         logAccess st licenseKey "verify" "invalid_key" none now)
    | some keyData =>
        if !keyData.active then
          (⟨200, false, "Clé de licence désactivée", none⟩,
           logAccess st licenseKey "verify" "inactive" none now)
        else
          (⟨200, true, "Clé de licence valide", some keyData.owner⟩,
           logAccess (updateLastUsed st licenseKey now)
             licenseKey "verify" "success" none now)

/-- Generic admin response body `{success, message}` with HTTP status. -/
structure SimpleResp where
  status : Nat
  success : Bool
  message : String
deriving Repr, DecidableEq

/-- `UPDATE license_keys SET last_heartbeat = NOW(), last_ip = $2
WHERE license_key = $1`. -/
def updateHeartbeat (st : ServerState) (k ip : String) (now : Nat) : ServerState :=
  { st with licenseKeys := st.licenseKeys.map (fun r =>
      if r.licenseKey == k then
        { r with lastHeartbeat := some now, lastIp := some ip }
      else r) }

/-- Handler of `POST /api/heartbeat`: updates `last_heartbeat`/`last_ip`
(no row-count check) and then records the IP sighting; always answers
success for a nonempty key. -/
def heartbeat (st : ServerState) (licenseKey ipAddress : String) (now : Nat) :
    SimpleResp × ServerState :=
  if licenseKey = "" then
    (⟨400, false, "Clé de licence manquante"⟩, st)
  else
    let st1 := updateHeartbeat st licenseKey ipAddress now
    let st2 := trackIP st1 licenseKey ipAddress now
    (⟨200, true, "Heartbeat enregistré"⟩, st2)

/-- The legacy fixed admin secret (`const ADMIN_PASSWORD = 'admin123'`). -/
def ADMIN_PASSWORD : String := "admin123"

/-- Outcome of the `checkAdminAuth` middleware: either a role is granted
(and for the account path the authenticated username is recorded on the
request), or the request is answered 401. -/
inductive AuthOutcome where
  | granted (role : String) (username : Option String)
  | unauthorized (message : String)
deriving Repr, DecidableEq

/-- The `checkAdminAuth` middleware: first the legacy fixed secret, then
`SELECT role FROM users WHERE username = $1 AND password = $2` with the
grant restricted to the `admin` and `creator` roles. -/
def checkAdminAuth (st : ServerState) (username password : String) : AuthOutcome :=
  if password = ADMIN_PASSWORD then
    .granted "admin" none
  else if username ≠ "" ∧ password ≠ "" then
    match st.users.find? (fun u => u.username == username && u.password == password) with
    | some u =>
        if u.role = "admin" ∨ u.role = "creator" then
          .granted u.role (some username)
        else .unauthorized "Authentification requise"
    | none => .unauthorized "Authentification requise"
  else .unauthorized "Authentification requise"

/-- Express route composition `app.post(path, checkAdminAuth, handler)`:
the handler (which sees the granted role) runs only when the middleware
calls `next()`; otherwise the 401 body is returned and the state is the
untouched input state. -/
def adminEndpoint {α : Type} (st : ServerState) (username password : String)
    (onUnauthorized : String → α)
    (handler : String → α × ServerState) : α × ServerState :=
  match checkAdminAuth st username password with
  | .granted role _ => handler role
  | .unauthorized msg => (onUnauthorized msg, st)

/-- Response body of `POST /api/admin/create-key`. -/
structure CreateKeyResp where
  status : Nat
  success : Bool
  licenseKey : Option String
  message : String
deriving Repr, DecidableEq

/-- Character JavaScript uses for base-36 digit `d` in `Number.toString(36)`:
`0`–`9` then `a`–`z`. -/
def base36Char (d : Nat) : Char :=
  if d < 10 then Char.ofNat (48 + d) else Char.ofNat (87 + d)

/-- `'TW-' + Math.random().toString(36).substring(2, 15).toUpperCase()`.
The random draw is represented by `ds`, the base-36 fraction digits that
`Number.toString(36)` prints for it.  JavaScript prints the shortest
round-tripping representation, so trailing zero digits are omitted (e.g.
`(0.5).toString(36) = "0.i"`, and `(0).toString(36) = "0"` has no fraction
digits at all); `substring(2, 15)` keeps at most the first 13 of them. -/
def generateLicenseKey (ds : List Nat) : String :=
  "TW-" ++ String.mk (((ds.take 13).map base36Char).map Char.toUpper)

/-- Handler of `POST /api/admin/create-key` (after the auth middleware).
`INSERT INTO license_keys (license_key, owner, active) VALUES ($1,$2,true)`
raises on a primary-key collision, answered as a 500. -/
def createKey (st : ServerState) (owner : String) (ds : List Nat) (now : Nat) :
    CreateKeyResp × ServerState :=
  if owner = "" then
    (⟨400, false, none, "Nom du propriétaire requis"⟩, st)
  else
    let licenseKey := generateLicenseKey ds
    if st.licenseKeys.any (fun r => r.licenseKey == licenseKey) then
      (⟨500, false, none, "Erreur serveur"⟩, st)
    else
      (⟨200, true, some licenseKey, "Clé créée avec succès"⟩,
       { st with licenseKeys :=
           st.licenseKeys ++ [⟨licenseKey, owner, true, now, none, none, none⟩] })

/-- Handler of `POST /api/admin/create-user` (after the auth middleware).
The duplicate-username 400 comes from the `UNIQUE` constraint (error
`23505`) raised by the `INSERT`. -/
def createUser (st : ServerState)
    (newUsername userPassword role licenseKey : String) (now : Nat) :
    SimpleResp × ServerState :=
  if newUsername = "" ∨ userPassword = "" ∨ role = "" then
    (⟨400, false, "Username, password et rôle requis"⟩, st)
  else if ¬(role = "admin" ∨ role = "va") then
    (⟨400, false, "Rôle invalide (admin ou va)"⟩, st)
  else if role = "va" ∧ licenseKey = "" then
    (⟨400, false, "Clé de licence requise pour les VAs"⟩, st)
  else if st.users.any (fun u => u.username == newUsername) then
    (⟨400, false, "Ce nom d\x27utilisateur existe déjà"⟩, st)
  else
    (⟨200, true, if role = "admin" then "Admin créé avec succès" else "VA créé avec succès"⟩,
     { st with users := st.users ++
         [⟨newUsername, userPassword, role,
           if licenseKey = "" then none else some licenseKey, now, none⟩] })

/-- Handler of `POST /api/admin/update-user-role` (after the auth
middleware).  The `UPDATE` has no row-count check: an absent target is not
a 404. -/
def updateUserRole (st : ServerState)
    (targetUsername newRole newLicenseKey : String) :
    SimpleResp × ServerState :=
  if targetUsername = "creator" then
    (⟨403, false, "Le rôle du créateur ne peut pas être modifié"⟩, st)
  else if ¬(newRole = "admin" ∨ newRole = "va") then
    (⟨400, false, "Rôle invalide"⟩, st)
  else if newRole = "va" ∧ newLicenseKey = "" then
    (⟨400, false, "Clé de licence requise pour les VAs"⟩, st)
  else
    (⟨200, true, "Rôle mis à jour"⟩,
     { st with users := st.users.map (fun u =>
         if u.username == targetUsername then
           { u with role := newRole,
                    licenseKey := if newRole = "va" then some newLicenseKey else none }
         else u) })

/-- Handler of `POST /api/admin/delete-user` (after the auth middleware):
`DELETE FROM users WHERE username = $1 RETURNING *`, 404 when no row was
deleted, with the creator account shielded up front. -/
def deleteUser (st : ServerState) (targetUsername : String) :
    SimpleResp × ServerState :=
  if targetUsername = "creator" then
    (⟨403, false, "Le compte créateur ne peut pas être supprimé"⟩, st)
  else if st.users.any (fun u => u.username == targetUsername) then
    (⟨200, true, "Utilisateur supprimé"⟩,
     { st with users := st.users.filter (fun u => ¬(u.username == targetUsername)) })
  else
    (⟨404, false, "Utilisateur non trouvé"⟩, st)

/-- Response body of `POST /api/admin/reset-comments`. -/
structure ResetCommentsResp where
  status : Nat
  success : Bool
  message : String
  deletedCount : Option Nat
deriving Repr, DecidableEq

/-- Handler of `POST /api/admin/reset-comments` (after the auth middleware):
`DELETE FROM access_logs WHERE license_key = $1 AND action = $2 RETURNING *`
with `$2 = 'comment_posted'`; `deletedCount` is the row count. -/
def resetComments (st : ServerState) (licenseKey : String) :
    ResetCommentsResp × ServerState :=
  if licenseKey = "" then
    (⟨400, false, "Clé de licence requise", none⟩, st)
  else
    let deleted := st.accessLogs.filter
      (fun e => e.licenseKey == licenseKey && e.action == "comment_posted")
    let kept := st.accessLogs.filter
      (fun e => ¬(e.licenseKey == licenseKey && e.action == "comment_posted"))
    (⟨200, true, toString deleted.length ++ " commentaire(s) supprimé(s)",
      some deleted.length⟩,
     { st with accessLogs := kept })

/-- Response body of `POST /api/login`. -/
structure LoginResp where
  success : Bool
  role : Option String
  username : Option String
  licenseKey : Option String
  message : Option String
deriving Repr, DecidableEq

/-- `UPDATE users SET last_login = NOW() WHERE username = $1`. -/
def touchUserLogin (st : ServerState) (username : String) (now : Nat) : ServerState :=
  { st with users := st.users.map (fun u =>
      if u.username == username then { u with lastLogin := some now } else u) }

/-- `UPDATE guest_users SET last_login = NOW() WHERE username = $1`. -/
def touchGuestLogin (st : ServerState) (username : String) (now : Nat) : ServerState :=
  { st with guestUsers := st.guestUsers.map (fun g =>
      if g.username == username then { g with lastLogin := some now } else g) }

/-- Handler of `POST /api/login`: the `users` table first, then the legacy
`guest_users` table with the hard-coded role `guest`. -/
def login (st : ServerState) (username password : String) (now : Nat) :
    LoginResp × ServerState :=
  match st.users.find? (fun u => u.username == username && u.password == password) with
  | some u =>
      (⟨true, some u.role, some u.username, u.licenseKey, none⟩,
       touchUserLogin st username now)
  | none =>
      match st.guestUsers.find? (fun g => g.username == username && g.password == password) with
      | some _ =>
          (⟨true, some "guest", some username, none, none⟩,
           touchGuestLogin st username now)
      | none =>
          (⟨false, none, none, none, some "Identifiants invalides"⟩, st)

/-- `SELECT COUNT(*) FROM access_logs WHERE license_key = $1 AND action = $2`. -/
def countByAction (st : ServerState) (licenseKey action : String) : Nat :=
  (st.accessLogs.filter (fun e => e.licenseKey == licenseKey && e.action == action)).length

/-- The addresses recorded for a key, in `key_ips` row order. -/
def addrsOf (st : ServerState) (licenseKey : String) : List String :=
  (st.keyIps.filter (fun s => s.licenseKey == licenseKey)).map (fun s => s.ipAddress)

/-- `SELECT COUNT(DISTINCT ip_address) FROM key_ips WHERE license_key = $1`. -/
def uniqueAddressCount (st : ServerState) (licenseKey : String) : Nat :=
  (addrsOf st licenseKey).dedup.length

/-- The SQL expression `(last_heartbeat > NOW() - INTERVAL '60 seconds')`:
three-valued, `NULL` (here `none`) when `last_heartbeat` is `NULL`. -/
def isOnlineSql (lastHeartbeat : Option Nat) (now : Nat) : Option Bool :=
  lastHeartbeat.map (fun h : Nat => decide ((now : Int) - 60 < (h : Int)))

/-- One element of the `POST /api/admin/detailed-stats` response. -/
structure StatsRow where
  licenseKey : String
  owner : String
  active : Bool
  createdAt : Nat
  lastUsed : Option Nat
  lastHeartbeat : Option Nat
  lastIp : Option String
  isOnline : Option Bool
  commentsCount : Nat
  uniqueIps : Nat
  ips : List Sighting
deriving Repr, DecidableEq

/-- The stats record `POST /api/admin/detailed-stats` builds for one
`license_keys` row (the `ORDER BY last_seen DESC` of the `ips` sub-query is
kept as row order here). -/
def detailedStatsRow (st : ServerState) (r : LicenseKey) (now : Nat) : StatsRow :=
  { licenseKey := r.licenseKey
    owner := r.owner
    active := r.active
    createdAt := r.createdAt
    lastUsed := r.lastUsed
    lastHeartbeat := r.lastHeartbeat
    lastIp := r.lastIp
    isOnline := isOnlineSql r.lastHeartbeat now
    commentsCount := countByAction st r.licenseKey "comment_posted"
    uniqueIps := uniqueAddressCount st r.licenseKey
    ips := st.keyIps.filter (fun s => s.licenseKey == r.licenseKey) }

/-- Handler of `POST /api/admin/detailed-stats` (after the auth middleware),
with the `ORDER BY created_at DESC` kept as table order. -/
def detailedStats (st : ServerState) (now : Nat) : List StatsRow :=
  st.licenseKeys.map (fun r => detailedStatsRow st r now)

/-- A heartbeat-call sequence, as used by the presence-tracking claims:
`trackIP` folded over a list of `(address, time)` sightings of one key. -/
def recordSeq (st : ServerState) (licenseKey : String)
    (calls : List (String × Nat)) : ServerState :=
  calls.foldl (fun s c => trackIP s licenseKey c.1 c.2) st

/-! ## Theorems -/

/-- C1: for every license key `k` (a key, hence nonempty): `verify`
answers `valid:false` with the invalid-key outcome when no `license_keys`
row with key `k` exists, `valid:false` with the inactive outcome when the
row exists but is not active, and otherwise sets `last_used` to now and
answers `valid:true` with the stored owner; in each of the three cases
exactly one `access_logs` row with action `verify` and the corresponding
status (`invalid_key` / `inactive` / `success`) is appended, and nothing
else in the state changes. -/
theorem verify_outcomes (st : ServerState) (k : String) (now : Nat)
    (hk : k ≠ "") :
    (findKey st k = none →
      verify st k now =
        (⟨200, false, "Clé de licence invalide", none⟩,
         { st with accessLogs :=
             st.accessLogs ++ [⟨k, "verify", "invalid_key", none, now⟩] })) ∧
    (∀ r, findKey st k = some r → r.active = false →
      verify st k now =
        (⟨200, false, "Clé de licence désactivée", none⟩,
         { st with accessLogs :=
             st.accessLogs ++ [⟨k, "verify", "inactive", none, now⟩] })) ∧
    (∀ r, findKey st k = some r → r.active = true →
      verify st k now =
        (⟨200, true, "Clé de licence valide", some r.owner⟩,
         { st with
             licenseKeys := st.licenseKeys.map (fun q =>
               if q.licenseKey == k then { q with lastUsed := some now } else q),
             accessLogs :=
               st.accessLogs ++ [⟨k, "verify", "success", none, now⟩] })) := by
  refine ⟨?_, ?_, ?_⟩
  · intro h
    simp [verify, hk, h, logAccess]
  · intro r hr hact
    simp [verify, hk, hr, hact, logAccess]
  · intro r hr hact
    simp [verify, hk, hr, hact, logAccess, updateLastUsed]

/-- A small concrete database used by the witnesses below. -/
def stW1 : ServerState :=
  ⟨[⟨"TW-A", "Alice", true, 0, none, none, none⟩,
    ⟨"TW-B", "Bob", false, 1, none, none, none⟩],
   [], [], [], []⟩

/-- Witness for C1: concrete runs of all three outcomes on `stW1`. -/
theorem verify_outcomes_witness :
    verify stW1 "TW-C" 5 =
      (⟨200, false, "Clé de licence invalide", none⟩,
       { stW1 with accessLogs :=
           stW1.accessLogs ++ [⟨"TW-C", "verify", "invalid_key", none, 5⟩] }) ∧
    verify stW1 "TW-B" 5 =
      (⟨200, false, "Clé de licence désactivée", none⟩,
       { stW1 with accessLogs :=
           stW1.accessLogs ++ [⟨"TW-B", "verify", "inactive", none, 5⟩] }) ∧
    verify stW1 "TW-A" 5 =
      (⟨200, true, "Clé de licence valide", some "Alice"⟩,
       { stW1 with
           licenseKeys := stW1.licenseKeys.map (fun q =>
             if q.licenseKey == "TW-A" then { q with lastUsed := some 5 } else q),
           accessLogs :=
             stW1.accessLogs ++ [⟨"TW-A", "verify", "success", none, 5⟩] }) :=
  ⟨(verify_outcomes stW1 "TW-C" 5 (by decide)).1 (by rfl),
   (verify_outcomes stW1 "TW-B" 5 (by decide)).2.1
     ⟨"TW-B", "Bob", false, 1, none, none, none⟩ (by rfl) (by rfl),
   (verify_outcomes stW1 "TW-A" 5 (by decide)).2.2
     ⟨"TW-A", "Alice", true, 0, none, none, none⟩ (by rfl) (by rfl)⟩

/-- Helper: whenever `checkAdminAuth` denies, the message is the fixed
string `"Authentification requise"`, independent of the request. -/
lemma checkAdminAuth_unauthorized_msg (st : ServerState) (u p m : String)
    (hm : checkAdminAuth st u p = .unauthorized m) :
    m = "Authentification requise" := by
  unfold checkAdminAuth at hm
  by_cases hp : p = ADMIN_PASSWORD
  · rw [if_pos hp] at hm; cases hm
  · rw [if_neg hp] at hm
    by_cases hup : u ≠ "" ∧ p ≠ ""
    · rw [if_pos hup] at hm
      cases hfind : st.users.find? (fun a => a.username == u && a.password == p) with
      | none => rw [hfind] at hm; cases hm; rfl
      | some acct =>
        rw [hfind] at hm
        dsimp only at hm
        by_cases hrole : acct.role = "admin" ∨ acct.role = "creator"
        · rw [if_pos hrole] at hm; cases hm
        · rw [if_neg hrole] at hm; cases hm; rfl
    · rw [if_neg hup] at hm; cases hm; rfl

/-- Helper: whenever `checkAdminAuth` grants a role, either the legacy
fixed secret matched (role `admin`) or a matching account with role
`admin` or `creator` exists and its role is the one granted. -/
lemma checkAdminAuth_granted_inv (st : ServerState) (u p : String)
    (r : String) (uu : Option String)
    (hgr : checkAdminAuth st u p = .granted r uu) :
    (p = ADMIN_PASSWORD ∧ r = "admin") ∨
    (∃ acct ∈ st.users, acct.username = u ∧ acct.password = p ∧
      (acct.role = "admin" ∨ acct.role = "creator") ∧ r = acct.role) := by
  unfold checkAdminAuth at hgr
  by_cases hp : p = ADMIN_PASSWORD
  · rw [if_pos hp] at hgr
    cases hgr
    exact Or.inl ⟨hp, rfl⟩
  · rw [if_neg hp] at hgr
    by_cases hup : u ≠ "" ∧ p ≠ ""
    · rw [if_pos hup] at hgr
      cases hfind : st.users.find? (fun a => a.username == u && a.password == p) with
      | none => rw [hfind] at hgr; cases hgr
      | some acct =>
        rw [hfind] at hgr
        dsimp only at hgr
        by_cases hrole : acct.role = "admin" ∨ acct.role = "creator"
        · rw [if_pos hrole] at hgr
          cases hgr
          have hmem := List.mem_of_find?_eq_some hfind
          have hpred := List.find?_some hfind
          simp only [Bool.and_eq_true, beq_iff_eq] at hpred
          exact Or.inr ⟨acct, hmem, hpred.1, hpred.2, hrole, rfl⟩
        · rw [if_neg hrole] at hgr; cases hgr
    · rw [if_neg hup] at hgr; cases hgr

/-- C2: the admin gate grants a role only through the fixed legacy secret
(role `admin`) or through a matching account whose role is `admin` or
`creator`; in every other case the endpoint answers 401 with the fixed
message `"Authentification requise"` (revealing nothing about which
credential failed), the guarded handler is not executed (the endpoint
result does not depend on it), and the state is returned unchanged. -/
theorem admin_gate_spec (st : ServerState) (u p : String) :
    (∀ r uu, checkAdminAuth st u p = .granted r uu →
      (p = ADMIN_PASSWORD ∧ r = "admin") ∨
      (∃ acct ∈ st.users, acct.username = u ∧ acct.password = p ∧
        (acct.role = "admin" ∨ acct.role = "creator") ∧ r = acct.role)) ∧
    (∀ m, checkAdminAuth st u p = .unauthorized m →
      m = "Authentification requise") ∧
    (∀ (α : Type) (onU : String → α) (h₁ h₂ : String → α × ServerState) m,
      checkAdminAuth st u p = .unauthorized m →
      adminEndpoint st u p onU h₁ = (onU "Authentification requise", st) ∧
      adminEndpoint st u p onU h₁ = adminEndpoint st u p onU h₂) := by
  refine ⟨fun r uu hgr => checkAdminAuth_granted_inv st u p r uu hgr,
          fun m hm => checkAdminAuth_unauthorized_msg st u p m hm,
          fun α onU h₁ h₂ m hm => ?_⟩
  have hmsg := checkAdminAuth_unauthorized_msg st u p m hm
  unfold adminEndpoint
  rw [hm, hmsg]
  exact ⟨rfl, rfl⟩

/-- A concrete account directory used by witnesses: the bootstrapped
creator, one admin, one VA, and one legacy guest. -/
def stUsers : ServerState :=
  ⟨[⟨"TW-A", "Alice", true, 0, none, none, none⟩], [], [],
   [⟨"creator", "creator123", "creator", none, 0, none⟩,
    ⟨"alice", "pw1", "admin", none, 1, none⟩,
    ⟨"vick", "pw2", "va", some "TW-A", 2, none⟩],
   [⟨"gus", "gpw", 3, none⟩]⟩

/-- Witness for C2: with wrong credentials the endpoint answers the fixed
401 body, leaves the state unchanged and ignores the handler (here one
that would wipe the database); with a matching VA account the gate also
denies (role `va` is not `admin`/`creator`). -/
theorem admin_gate_spec_witness :
    (adminEndpoint stUsers "eve" "wrong"
        (fun m => SimpleResp.mk 401 false m)
        (fun _ => (⟨200, true, "hacked"⟩, ⟨[], [], [], [], []⟩)) =
      (⟨401, false, "Authentification requise"⟩, stUsers) ∧
     adminEndpoint stUsers "eve" "wrong"
        (fun m => SimpleResp.mk 401 false m)
        (fun _ => (⟨200, true, "hacked"⟩, ⟨[], [], [], [], []⟩)) =
      adminEndpoint stUsers "eve" "wrong"
        (fun m => SimpleResp.mk 401 false m)
        (fun _ => (⟨200, true, "other"⟩, stUsers))) ∧
    (("admin123" = ADMIN_PASSWORD ∧ "admin" = "admin") ∨
      (∃ acct ∈ stUsers.users, acct.username = "ignored" ∧
        acct.password = "admin123" ∧
        (acct.role = "admin" ∨ acct.role = "creator") ∧ "admin" = acct.role)) :=
  ⟨(admin_gate_spec stUsers "eve" "wrong").2.2 SimpleResp
      (fun m => SimpleResp.mk 401 false m)
      (fun _ => (⟨200, true, "hacked"⟩, ⟨[], [], [], [], []⟩))
      (fun _ => (⟨200, true, "other"⟩, stUsers))
      "Authentification requise" (by rfl),
   (admin_gate_spec stUsers "ignored" "admin123").1 "admin" none (by rfl)⟩

/-- Helper: `trackIP` never touches the `license_keys` table. -/
lemma trackIP_licenseKeys (st : ServerState) (k ip : String) (now : Nat) :
    (trackIP st k ip now).licenseKeys = st.licenseKeys := by
  unfold trackIP
  split <;> rfl

/-- Helper: when the key is absent, the heartbeat `UPDATE` matches no row
and leaves `license_keys` as it was. -/
lemma updateHeartbeat_not_found (st : ServerState) (k ip : String) (now : Nat)
    (h : findKey st k = none) :
    (updateHeartbeat st k ip now).licenseKeys = st.licenseKeys := by
  unfold updateHeartbeat
  dsimp
  conv_rhs => rw [← List.map_id st.licenseKeys]
  apply List.map_congr_left
  intro r hr
  have hne := List.find?_eq_none.mp h r hr
  simp only [id]
  rw [if_neg hne]

/-- Helper: looking the key up after the heartbeat `UPDATE` returns the
row with `last_heartbeat` and `last_ip` set. -/
lemma findKey_updateHeartbeat (st : ServerState) (k ip : String) (now : Nat) :
    findKey (updateHeartbeat st k ip now) k =
      (findKey st k).map
        (fun r => { r with lastHeartbeat := some now, lastIp := some ip }) := by
  unfold findKey updateHeartbeat
  dsimp
  induction st.licenseKeys with
  | nil => rfl
  | cons a l ih =>
    dsimp only [List.map]
    by_cases ha : (a.licenseKey == k) = true
    · rw [if_pos ha]
      simp [List.find?, ha]
    · rw [if_neg ha]
      simp only [List.find?, ha]
      exact ih

/-- Helper: after `trackIP`, a sighting of the given `(key, address)`
pair with `last_seen = now` is in `key_ips`. -/
lemma trackIP_sighting (st : ServerState) (k ip : String) (now : Nat) :
    ∃ s ∈ (trackIP st k ip now).keyIps,
      s.licenseKey = k ∧ s.ipAddress = ip ∧ s.lastSeen = now := by
  unfold trackIP
  by_cases h : (st.keyIps.any (fun s => s.licenseKey == k && s.ipAddress == ip)) = true
  · rw [if_pos h]
    dsimp
    obtain ⟨s, hs, hpred⟩ := List.any_eq_true.mp h
    simp only [Bool.and_eq_true, beq_iff_eq] at hpred
    refine ⟨{ s with lastSeen := now }, ?_, hpred.1, hpred.2, rfl⟩
    have hfs : ({ s with lastSeen := now } : Sighting) =
        (fun s' => if s'.licenseKey == k && s'.ipAddress == ip then
          { s' with lastSeen := now } else s') s := by
      simp [hpred.1, hpred.2]
    rw [hfs]
    exact List.mem_map_of_mem _ hs
  · rw [if_neg h]
    exact ⟨⟨k, ip, now, now⟩, by simp, rfl, rfl, rfl⟩

/-- The empty database. -/
def stEmpty : ServerState := ⟨[], [], [], [], []⟩

/-- C3 counterexample: with an empty database (so the key does not exist)
the heartbeat handler does not fail with NotFound — it answers success and
mutates state, inserting a `key_ips` sighting for the nonexistent key. -/
theorem heartbeat_missing_key_succeeds :
    findKey stEmpty "TW-GHOST" = none ∧
    heartbeat stEmpty "TW-GHOST" "1.2.3.4" 7 =
      (⟨200, true, "Heartbeat enregistré"⟩,
       ⟨[], [], [⟨"TW-GHOST", "1.2.3.4", 7, 7⟩], [], []⟩) :=
  ⟨rfl, rfl⟩

/-- C3 (amended): for every nonempty key the heartbeat handler reports
success (there is no NotFound outcome).  When the key is absent the
`license_keys` table is left unchanged, but a `(key, address)` sighting is
still recorded; when the key is present its row gets
`last_heartbeat = now` and `last_ip = address`, and the sighting is
recorded as well. -/
theorem heartbeat_behavior (st : ServerState) (k ip : String) (now : Nat)
    (hk : k ≠ "") :
    (heartbeat st k ip now).1 = ⟨200, true, "Heartbeat enregistré"⟩ ∧
    (findKey st k = none →
      (heartbeat st k ip now).2.licenseKeys = st.licenseKeys) ∧
    (∀ r, findKey st k = some r →
      findKey (heartbeat st k ip now).2 k =
        some { r with lastHeartbeat := some now, lastIp := some ip }) ∧
    (∃ s ∈ (heartbeat st k ip now).2.keyIps,
      s.licenseKey = k ∧ s.ipAddress = ip ∧ s.lastSeen = now) := by
  have hres : heartbeat st k ip now =
      (⟨200, true, "Heartbeat enregistré"⟩,
       trackIP (updateHeartbeat st k ip now) k ip now) := by
    unfold heartbeat
    rw [if_neg hk]
  refine ⟨by rw [hres], ?_, ?_, ?_⟩
  · intro habs
    rw [hres]
    dsimp
    rw [trackIP_licenseKeys, updateHeartbeat_not_found st k ip now habs]
  · intro r hr
    rw [hres]
    dsimp
    unfold findKey at hr ⊢
    rw [trackIP_licenseKeys]
    have h2 := findKey_updateHeartbeat st k ip now
    unfold findKey at h2
    rw [h2, hr]
    rfl
  · rw [hres]
    exact trackIP_sighting (updateHeartbeat st k ip now) k ip now

/-- Witness for C3 (amended): a concrete run on `stW1`, whose key `TW-A`
exists. -/
theorem heartbeat_behavior_witness :
    (heartbeat stW1 "TW-A" "9.9.9.9" 11).1 =
      ⟨200, true, "Heartbeat enregistré"⟩ ∧
    findKey (heartbeat stW1 "TW-A" "9.9.9.9" 11).2 "TW-A" =
      some ⟨"TW-A", "Alice", true, 0, none, some 11, some "9.9.9.9"⟩ ∧
    (∃ s ∈ (heartbeat stW1 "TW-A" "9.9.9.9" 11).2.keyIps,
      s.licenseKey = "TW-A" ∧ s.ipAddress = "9.9.9.9" ∧ s.lastSeen = 11) :=
  ⟨(heartbeat_behavior stW1 "TW-A" "9.9.9.9" 11 (by decide)).1,
   (heartbeat_behavior stW1 "TW-A" "9.9.9.9" 11 (by decide)).2.2.1
     ⟨"TW-A", "Alice", true, 0, none, none, none⟩ (by rfl),
   (heartbeat_behavior stW1 "TW-A" "9.9.9.9" 11 (by decide)).2.2.2⟩

/-- C4 counterexample: a key whose last heartbeat is exactly 60 seconds
old is reported offline (`is_online = false`), because the SQL test
`last_heartbeat > NOW() - INTERVAL '60 seconds'` is strict — the claim
says a 60-second-old heartbeat still counts as online. -/
theorem isOnline_boundary_refutes :
    (detailedStatsRow stEmpty ⟨"TW-A", "Alice", true, 0, none, some 100, none⟩
        160).isOnline = some false ∧
    160 - 100 ≤ 60 := by
  exact ⟨by decide, by decide⟩

/-- C4 (amended): the `is_online` flag computed by the detailed-stats
handler is `true` iff a heartbeat was recorded strictly less than 60
seconds before `now` (`now - lastHeartbeatAt < 60`); a heartbeat exactly
60 seconds old yields `false`, and a key with no heartbeat ever yields
SQL `NULL` (serialized `null`, not the boolean `false`).  A heartbeat
followed immediately by the check (`now` equal to the heartbeat time)
yields `true`. -/
theorem isOnline_spec (st : ServerState) (r : LicenseKey) (now : Nat) :
    ((detailedStatsRow st r now).isOnline = some true ↔
      ∃ h, r.lastHeartbeat = some h ∧ now - h < 60) ∧
    (r.lastHeartbeat = none → (detailedStatsRow st r now).isOnline = none) ∧
    (∀ h, r.lastHeartbeat = some h →
      (detailedStatsRow st r now).isOnline = some (decide (now - h < 60))) := by
  have hrow : (detailedStatsRow st r now).isOnline =
      isOnlineSql r.lastHeartbeat now := rfl
  refine ⟨?_, ?_, ?_⟩
  · rw [hrow]
    cases hlh : r.lastHeartbeat with
    | none => simp [isOnlineSql]
    | some h =>
      unfold isOnlineSql
      simp only [Option.map_some', Option.some.injEq, decide_eq_true_eq]
      constructor
      · intro hd
        exact ⟨h, rfl, by omega⟩
      · rintro ⟨h', hh', hlt⟩
        cases hh'
        omega
  · intro hnone
    rw [hrow, hnone]
    rfl
  · intro h hh
    rw [hrow, hh]
    unfold isOnlineSql
    simp only [Option.map_some', Option.some.injEq]
    by_cases hlt : now - h < 60
    · rw [decide_eq_true (by omega : (now : Int) - 60 < (h : Int)),
        decide_eq_true hlt]
    · rw [decide_eq_false (by omega : ¬((now : Int) - 60 < (h : Int))),
        decide_eq_false hlt]

/-- Witness for C4 (amended): concrete evaluations — a fresh heartbeat is
online, a 60-second-old one is offline, a missing one is `null`. -/
theorem isOnline_spec_witness :
    ((detailedStatsRow stEmpty ⟨"TW-A", "A", true, 0, none, some 50, none⟩
        50).isOnline = some true ↔
      ∃ h, (some 50 : Option Nat) = some h ∧ 50 - h < 60) ∧
    (detailedStatsRow stEmpty ⟨"TW-B", "B", true, 0, none, none, none⟩
        50).isOnline = none ∧
    (detailedStatsRow stEmpty ⟨"TW-C", "C", true, 0, none, some 100, none⟩
        160).isOnline = some (decide (160 - 100 < 60)) :=
  ⟨(isOnline_spec stEmpty ⟨"TW-A", "A", true, 0, none, some 50, none⟩ 50).1,
   (isOnline_spec stEmpty ⟨"TW-B", "B", true, 0, none, none, none⟩ 50).2.1 rfl,
   (isOnline_spec stEmpty ⟨"TW-C", "C", true, 0, none, some 100, none⟩
      160).2.2 100 rfl⟩

/-- Helper: insert-at-end-if-absent, the effect one `trackIP` call has on
the list of addresses recorded for the key. -/
def insAddr (l : List String) (a : String) : List String :=
  if a ∈ l then l else l ++ [a]

/-- Helper: the `ON CONFLICT` test of `trackIP` is membership of the
address in the key's recorded addresses. -/
lemma any_pair_iff_mem_addrsOf (st : ServerState) (k ip : String) :
    (st.keyIps.any (fun s => s.licenseKey == k && s.ipAddress == ip)) = true ↔
    ip ∈ addrsOf st k := by
  simp only [addrsOf, List.any_eq_true, Bool.and_eq_true, beq_iff_eq,
    List.mem_map, List.mem_filter]
  constructor
  · rintro ⟨s, hs, h1, h2⟩
    exact ⟨s, ⟨hs, by simp [h1]⟩, h2⟩
  · rintro ⟨s, ⟨hs, h1⟩, h2⟩
    exact ⟨s, hs, by simpa using h1, h2⟩

/-- Helper: mapping a function over the sightings that preserves key and
address does not change the addresses recorded for a key. -/
lemma addrsOf_map_preserving (l : List Sighting) (f : Sighting → Sighting)
    (hkey : ∀ s, (f s).licenseKey = s.licenseKey)
    (hip : ∀ s, (f s).ipAddress = s.ipAddress) (k : String) :
    ((l.map f).filter (fun s => s.licenseKey == k)).map (fun s => s.ipAddress) =
    (l.filter (fun s => s.licenseKey == k)).map (fun s => s.ipAddress) := by
  induction l with
  | nil => rfl
  | cons a l ih =>
    simp only [List.map, List.filter_cons, hkey]
    by_cases ha : (a.licenseKey == k) = true
    · rw [if_pos ha, if_pos ha]
      simp only [List.map, hip]
      rw [ih]
    · rw [if_neg ha, if_neg ha]
      exact ih

/-- Helper: one `trackIP` call acts on the key's recorded address list as
`insAddr` (no change when the pair already exists, append otherwise). -/
lemma trackIP_addrsOf (st : ServerState) (k ip : String) (t : Nat) :
    addrsOf (trackIP st k ip t) k = insAddr (addrsOf st k) ip := by
  unfold trackIP insAddr
  by_cases h : (st.keyIps.any (fun s => s.licenseKey == k && s.ipAddress == ip)) = true
  · rw [if_pos h, if_pos ((any_pair_iff_mem_addrsOf st k ip).mp h)]
    unfold addrsOf
    dsimp
    apply addrsOf_map_preserving
    · intro s
      by_cases hc : (s.licenseKey == k && s.ipAddress == ip) = true
      · rw [if_pos hc]
      · rw [if_neg hc]
    · intro s
      by_cases hc : (s.licenseKey == k && s.ipAddress == ip) = true
      · rw [if_pos hc]
      · rw [if_neg hc]
  · have hnm : ¬ ip ∈ addrsOf st k :=
      fun hm => h ((any_pair_iff_mem_addrsOf st k ip).mpr hm)
    rw [if_neg h, if_neg hnm]
    unfold addrsOf
    dsimp
    rw [List.filter_append, List.map_append]
    congr 1
    simp [List.filter]

/-- Helper: a heartbeat sequence acts on the key's recorded address list
as a fold of `insAddr` over the called addresses. -/
lemma recordSeq_addrsOf (st : ServerState) (k : String)
    (calls : List (String × Nat)) :
    addrsOf (recordSeq st k calls) k =
      (calls.map Prod.fst).foldl insAddr (addrsOf st k) := by
  induction calls generalizing st with
  | nil => rfl
  | cons c cs ih =>
    show addrsOf (recordSeq (trackIP st k c.1 c.2) k cs) k = _
    rw [ih (trackIP st k c.1 c.2), trackIP_addrsOf]
    rfl

/-- Helper: `insAddr` preserves distinctness. -/
lemma insAddr_nodup (l : List String) (a : String) (hl : l.Nodup) :
    (insAddr l a).Nodup := by
  unfold insAddr
  by_cases hm : a ∈ l
  · rw [if_pos hm]; exact hl
  · rw [if_neg hm]
    rw [List.nodup_append]
    exact ⟨hl, List.nodup_singleton a,
      fun x hx hxa => hm (by
        have : x = a := by simpa using hxa
        simpa [this] using hx)⟩

/-- Helper: `insAddr` inserts into the underlying finite set. -/
lemma insAddr_toFinset (l : List String) (a : String) :
    (insAddr l a).toFinset = insert a l.toFinset := by
  unfold insAddr
  by_cases hm : a ∈ l
  · rw [if_pos hm, Finset.insert_eq_self.mpr (List.mem_toFinset.mpr hm)]
  · rw [if_neg hm, List.toFinset_append]
    simp [Finset.insert_eq, Finset.union_comm]

/-- Helper: folding `insAddr` preserves distinctness. -/
lemma foldl_insAddr_nodup (as : List String) :
    ∀ l : List String, l.Nodup → (as.foldl insAddr l).Nodup := by
  induction as with
  | nil => intro l hl; exact hl
  | cons a as ih =>
    intro l hl
    exact ih (insAddr l a) (insAddr_nodup l a hl)

/-- Helper: folding `insAddr` unions the address sets. -/
lemma foldl_insAddr_toFinset (as : List String) :
    ∀ l : List String, (as.foldl insAddr l).toFinset = l.toFinset ∪ as.toFinset := by
  induction as with
  | nil => intro l; simp
  | cons a as ih =>
    intro l
    show (as.foldl insAddr (insAddr l a)).toFinset = _
    rw [ih (insAddr l a), insAddr_toFinset, Finset.insert_union,
      List.toFinset_cons, Finset.union_insert]

/-- Helper: starting from a key with no recorded addresses, the distinct
address count after a heartbeat sequence is the number of distinct
addresses in the sequence. -/
lemma uniqueAddressCount_recordSeq (st : ServerState) (k : String)
    (calls : List (String × Nat)) (h : addrsOf st k = []) :
    uniqueAddressCount (recordSeq st k calls) k =
      (calls.map Prod.fst).toFinset.card := by
  unfold uniqueAddressCount
  rw [recordSeq_addrsOf, h]
  have hnd : ((calls.map Prod.fst).foldl insAddr []).Nodup :=
    foldl_insAddr_nodup (calls.map Prod.fst) [] List.nodup_nil
  rw [List.Nodup.dedup hnd, ← List.toFinset_card_of_nodup hnd,
    foldl_insAddr_toFinset]
  simp

/-- Helper: the finite set of a nonempty constant list is the singleton. -/
lemma map_const_toFinset (a : String) :
    ∀ ts : List Nat, ts ≠ [] → (ts.map (fun _ => a)).toFinset = {a}
  | [], h => absurd rfl h
  | [_], _ => by simp
  | t :: t' :: ts, _ => by
      rw [List.map_cons, List.toFinset_cons,
        map_const_toFinset a (t' :: ts) (by simp)]
      simp

/-- Helper: every existing sighting survives a `trackIP` call with its
key, address and `first_seen` unchanged; `last_seen` is unchanged or set
to the call time. -/
lemma trackIP_preserves (st : ServerState) (k ip : String) (t : Nat)
    (s : Sighting) (hs : s ∈ st.keyIps) :
    ∃ s' ∈ (trackIP st k ip t).keyIps,
      s'.licenseKey = s.licenseKey ∧ s'.ipAddress = s.ipAddress ∧
      s'.firstSeen = s.firstSeen ∧
      (s'.lastSeen = s.lastSeen ∨ s'.lastSeen = t) := by
  unfold trackIP
  by_cases h : (st.keyIps.any (fun q => q.licenseKey == k && q.ipAddress == ip)) = true
  · rw [if_pos h]
    dsimp
    refine ⟨if s.licenseKey == k && s.ipAddress == ip then { s with lastSeen := t } else s,
      List.mem_map_of_mem _ hs, ?_⟩
    by_cases hc : (s.licenseKey == k && s.ipAddress == ip) = true
    · rw [if_pos hc]
      exact ⟨rfl, rfl, rfl, Or.inr rfl⟩
    · rw [if_neg hc]
      exact ⟨rfl, rfl, rfl, Or.inl rfl⟩
  · rw [if_neg h]
    exact ⟨s, by simp [hs], rfl, rfl, rfl, Or.inl rfl⟩

/-- C5: presence tracking.  Starting from a key with no recorded
addresses, a heartbeat sequence with one repeated address leaves the
distinct-address count at 1 and a sequence of pairwise-distinct addresses
leaves it at the number of addresses; an existing `(key, address)`
sighting keeps its `first_seen` forever, its `last_seen` never decreases
(given call times at or after it), a first sighting is created with
`first_seen = last_seen = now`, and after any sighting the pair's row has
`last_seen` equal to that sighting's time. -/
theorem presence_tracking_spec (st : ServerState) (k : String) :
    (addrsOf st k = [] →
      (∀ (a : String) (ts : List Nat), ts ≠ [] →
        uniqueAddressCount (recordSeq st k (ts.map (fun t => (a, t)))) k = 1) ∧
      (∀ calls : List (String × Nat), (calls.map Prod.fst).Nodup →
        uniqueAddressCount (recordSeq st k calls) k = calls.length)) ∧
    (∀ (ip : String) (t : Nat) (s : Sighting), s ∈ st.keyIps → s.lastSeen ≤ t →
      ∃ s' ∈ (trackIP st k ip t).keyIps,
        s'.licenseKey = s.licenseKey ∧ s'.ipAddress = s.ipAddress ∧
        s'.firstSeen = s.firstSeen ∧ s.lastSeen ≤ s'.lastSeen) ∧
    (∀ (ip : String) (t : Nat), ip ∉ addrsOf st k →
      ∃ s' ∈ (trackIP st k ip t).keyIps,
        s'.licenseKey = k ∧ s'.ipAddress = ip ∧
        s'.firstSeen = t ∧ s'.lastSeen = t) ∧
    (∀ (ip : String) (t : Nat),
      ∃ s' ∈ (trackIP st k ip t).keyIps,
        s'.licenseKey = k ∧ s'.ipAddress = ip ∧ s'.lastSeen = t) := by
  refine ⟨fun h0 => ⟨?_, ?_⟩, ?_, ?_, ?_⟩
  · intro a ts hts
    rw [uniqueAddressCount_recordSeq st k _ h0]
    have : (ts.map (fun t => (a, t))).map Prod.fst = ts.map (fun _ => a) := by
      rw [List.map_map]; rfl
    rw [this, map_const_toFinset a ts hts]
    rfl
  · intro calls hnd
    rw [uniqueAddressCount_recordSeq st k _ h0,
      List.toFinset_card_of_nodup hnd, List.length_map]
  · intro ip t s hs hle
    obtain ⟨s', hs', h1, h2, h3, h4⟩ := trackIP_preserves st k ip t s hs
    refine ⟨s', hs', h1, h2, h3, ?_⟩
    rcases h4 with h4 | h4
    · rw [h4]
    · rw [h4]; exact hle
  · intro ip t hnm
    have h : ¬ (st.keyIps.any (fun q => q.licenseKey == k && q.ipAddress == ip)) = true :=
      fun ha => hnm ((any_pair_iff_mem_addrsOf st k ip).mp ha)
    unfold trackIP
    rw [if_neg h]
    exact ⟨⟨k, ip, t, t⟩, by simp, rfl, rfl, rfl, rfl⟩
  · intro ip t
    exact trackIP_sighting st k ip t

/-- Witness for C5: concrete heartbeat sequences on the empty tracker —
three heartbeats with one address count 1, two distinct addresses count
2, and a first sighting stores `first_seen = last_seen = now`. -/
theorem presence_tracking_spec_witness :
    uniqueAddressCount
      (recordSeq stEmpty "TW-A"
        (([1, 2, 3] : List Nat).map (fun t => ("1.1.1.1", t)))) "TW-A" = 1 ∧
    uniqueAddressCount
      (recordSeq stEmpty "TW-A" [("1.1.1.1", 1), ("2.2.2.2", 2)]) "TW-A" = 2 ∧
    (∃ s' ∈ (trackIP stEmpty "TW-A" "1.1.1.1" 4).keyIps,
      s'.licenseKey = "TW-A" ∧ s'.ipAddress = "1.1.1.1" ∧
      s'.firstSeen = 4 ∧ s'.lastSeen = 4) :=
  ⟨((presence_tracking_spec stEmpty "TW-A").1 (by rfl)).1 "1.1.1.1" [1, 2, 3]
      (by decide),
   ((presence_tracking_spec stEmpty "TW-A").1 (by rfl)).2
      [("1.1.1.1", 1), ("2.2.2.2", 2)] (by decide),
   (presence_tracking_spec stEmpty "TW-A").2.2.1 "1.1.1.1" 4 (by decide)⟩

/-- C6: the creator account is shielded — `delete-user` and
`update-user-role` targeted at `creator` answer 403 Forbidden with the
state untouched (whatever role the gate granted the caller, since the
check precedes everything), and for ANY target these two operations
preserve every row whose username is `creator` unchanged. -/
theorem creator_protected (st : ServerState)
    (newRole newLicenseKey target : String) :
    deleteUser st "creator" =
      (⟨403, false, "Le compte créateur ne peut pas être supprimé"⟩, st) ∧
    updateUserRole st "creator" newRole newLicenseKey =
      (⟨403, false, "Le rôle du créateur ne peut pas être modifié"⟩, st) ∧
    (∀ cu ∈ st.users, cu.username = "creator" →
      cu ∈ (deleteUser st target).2.users ∧
      cu ∈ (updateUserRole st target newRole newLicenseKey).2.users) := by
  refine ⟨by unfold deleteUser; rw [if_pos rfl],
          by unfold updateUserRole; rw [if_pos rfl], ?_⟩
  intro cu hcu hname
  constructor
  · by_cases ht : target = "creator"
    · subst ht
      unfold deleteUser
      rw [if_pos rfl]
      exact hcu
    · unfold deleteUser
      rw [if_neg ht]
      by_cases hany : (st.users.any (fun u => u.username == target)) = true
      · rw [if_pos hany]
        dsimp
        apply List.mem_filter.mpr
        refine ⟨hcu, ?_⟩
        have hne : ¬"creator" = target := fun h => ht h.symm
        simp [hname, hne]
      · rw [if_neg hany]
        exact hcu
  · by_cases ht : target = "creator"
    · subst ht
      unfold updateUserRole
      rw [if_pos rfl]
      exact hcu
    · unfold updateUserRole
      rw [if_neg ht]
      by_cases h1 : ¬(newRole = "admin" ∨ newRole = "va")
      · rw [if_pos h1]; exact hcu
      · rw [if_neg h1]
        by_cases h2 : newRole = "va" ∧ newLicenseKey = ""
        · rw [if_pos h2]; exact hcu
        · rw [if_neg h2]
          dsimp
          have hfix : (fun u : UserRow =>
              if u.username == target then
                { u with role := newRole,
                         licenseKey := if newRole = "va" then some newLicenseKey else none }
              else u) cu = cu := by
            have hne : ¬"creator" = target := fun h => ht h.symm
            have hb : (cu.username == target) = false := by
              simp [hname]
              exact hne
            simp [hb]
          rw [← hfix]
          exact List.mem_map_of_mem _ hcu

/-- Witness for C6: the creator row of `stUsers` survives a delete and a
role update aimed at `alice`, and direct attempts on `creator` give 403. -/
theorem creator_protected_witness :
    deleteUser stUsers "creator" =
      (⟨403, false, "Le compte créateur ne peut pas être supprimé"⟩, stUsers) ∧
    (⟨"creator", "creator123", "creator", none, 0, none⟩ : UserRow) ∈
      (deleteUser stUsers "alice").2.users ∧
    (⟨"creator", "creator123", "creator", none, 0, none⟩ : UserRow) ∈
      (updateUserRole stUsers "alice" "va" "TW-A").2.users :=
  ⟨(creator_protected stUsers "va" "TW-A" "alice").1,
   ((creator_protected stUsers "va" "TW-A" "alice").2.2
      ⟨"creator", "creator123", "creator", none, 0, none⟩
      (by simp [stUsers]) (by rfl)).1,
   ((creator_protected stUsers "va" "TW-A" "alice").2.2
      ⟨"creator", "creator123", "creator", none, 0, none⟩
      (by simp [stUsers]) (by rfl)).2⟩

/-- C7 counterexample: creating an `admin` account WITH a bound license
key is accepted (and the key is stored), not rejected with a
ValidationError as the claim requires for non-operator roles. -/
theorem createUser_admin_with_key_accepted :
    createUser stUsers "bob" "pw" "admin" "TW-X" 9 =
      (⟨200, true, "Admin créé avec succès"⟩,
       { stUsers with users := stUsers.users ++
           [⟨"bob", "pw", "admin", some "TW-X", 9, none⟩] }) ∧
    (createUser stUsers "bob" "pw" "admin" "TW-X" 9).1.status ≠ 400 := by
  exact ⟨by rfl, by decide⟩

/-- C7 (amended): `create-user` fails with the duplicate-username error
(no mutation) when the username is taken, fails with a validation error
when role is `va` (operator) and the bound key is missing, fails with a
validation error when the role is outside `{admin, va}`; but a bound
license key supplied together with role `admin` is NOT rejected — the
account is created and the key stored on it. -/
theorem createUser_spec (st : ServerState)
    (u pw role key : String) (now : Nat) :
    (u ≠ "" → pw ≠ "" → (role = "admin" ∨ role = "va") →
      (role = "va" → key ≠ "") →
      (st.users.any (fun q => q.username == u)) = true →
      createUser st u pw role key now =
        (⟨400, false, "Ce nom d\x27utilisateur existe déjà"⟩, st)) ∧
    (u ≠ "" → pw ≠ "" → role = "va" → key = "" →
      createUser st u pw role key now =
        (⟨400, false, "Clé de licence requise pour les VAs"⟩, st)) ∧
    (u ≠ "" → pw ≠ "" → role ≠ "" → ¬(role = "admin" ∨ role = "va") →
      createUser st u pw role key now =
        (⟨400, false, "Rôle invalide (admin ou va)"⟩, st)) ∧
    (u ≠ "" → pw ≠ "" → role = "admin" → key ≠ "" →
      ¬(st.users.any (fun q => q.username == u)) = true →
      createUser st u pw role key now =
        (⟨200, true, "Admin créé avec succès"⟩,
         { st with users := st.users ++ [⟨u, pw, "admin", some key, now, none⟩] })) := by
  refine ⟨?_, ?_, ?_, ?_⟩
  · intro hu hpw hrole hkey hdup
    have hrne : role ≠ "" := by
      rcases hrole with h | h <;> simp [h]
    unfold createUser
    rw [if_neg (by simp [hu, hpw, hrne]), if_neg (not_not_intro hrole),
      if_neg ?_, if_pos hdup]
    rintro ⟨hva, hke⟩
    exact hkey hva hke
  · intro hu hpw hva hke
    unfold createUser
    rw [if_neg (by simp [hu, hpw, hva]), if_neg (not_not_intro (Or.inr hva)),
      if_pos ⟨hva, hke⟩]
  · intro hu hpw hrne hbad
    unfold createUser
    rw [if_neg (by simp [hu, hpw, hrne]), if_pos hbad]
  · intro hu hpw hadm hke hfree
    subst hadm
    unfold createUser
    rw [if_neg (by simp [hu, hpw]), if_neg (not_not_intro (Or.inl rfl)),
      if_neg (by rintro ⟨h, _⟩; exact absurd h (by decide)), if_neg hfree]
    dsimp
    rw [if_neg hke]

/-- Witness for C7 (amended): concrete runs of all four branches on
`stUsers`. -/
theorem createUser_spec_witness :
    createUser stUsers "alice" "x" "admin" "" 9 =
      (⟨400, false, "Ce nom d\x27utilisateur existe déjà"⟩, stUsers) ∧
    createUser stUsers "walt" "pw" "va" "" 9 =
      (⟨400, false, "Clé de licence requise pour les VAs"⟩, stUsers) ∧
    createUser stUsers "walt" "pw" "creator" "k" 9 =
      (⟨400, false, "Rôle invalide (admin ou va)"⟩, stUsers) ∧
    createUser stUsers "walt" "pw" "admin" "TW-Y" 9 =
      (⟨200, true, "Admin créé avec succès"⟩,
       { stUsers with users := stUsers.users ++
           [⟨"walt", "pw", "admin", some "TW-Y", 9, none⟩] }) :=
  ⟨(createUser_spec stUsers "alice" "x" "admin" "" 9).1 (by decide) (by decide)
      (Or.inl rfl) (fun h => absurd h (by decide)) (by rfl),
   (createUser_spec stUsers "walt" "pw" "va" "" 9).2.1 (by decide) (by decide)
      rfl rfl,
   (createUser_spec stUsers "walt" "pw" "creator" "k" 9).2.2.1 (by decide)
      (by decide) (by decide) (by decide),
   (createUser_spec stUsers "walt" "pw" "admin" "TW-Y" 9).2.2.2 (by decide)
      (by decide) rfl (by decide) (by decide)⟩

/-- Uppercase base-36 character test: `0`–`9` or `A`–`Z`. -/
def isUpperBase36 (c : Char) : Bool :=
  (48 ≤ c.toNat && c.toNat ≤ 57) || (65 ≤ c.toNat && c.toNat ≤ 90)

/-- Helper: every base-36 digit character, uppercased, is an uppercase
base-36 character. -/
lemma base36Char_upper :
    ∀ d : Nat, d < 36 → isUpperBase36 (base36Char d).toUpper = true := by
  decide

/-- Helper: the key string is `TW-` followed by the uppercased digit
characters. -/
lemma generateLicenseKey_toList (ds : List Nat) :
    (generateLicenseKey ds).toList =
      'T' :: 'W' :: '-' :: ((ds.take 13).map base36Char).map Char.toUpper := by
  show ("TW-" ++ String.mk (((ds.take 13).map base36Char).map Char.toUpper)).data = _
  rw [String.data_append]
  rfl

/-- C8 counterexample: the random draw 0.5 prints in base 36 as `0.i`
(`Number.toString` omits trailing zeros), so `substring(2, 15)` yields the
single character `i` and the issued key is `TW-I` — 1 character after
`TW-`, not 13 — yet key creation succeeds and stores it. -/
theorem createKey_short_key_refutes :
    (createKey stEmpty "Alice" [18] 3).1.success = true ∧
    (createKey stEmpty "Alice" [18] 3).1.licenseKey = some "TW-I" ∧
    ("TW-I" : String).length ≠ 16 := by
  refine ⟨by decide, by decide, by decide⟩

/-- C8 (amended): for a nonempty owner, `create-key` issues a key of the
form `TW-` followed by AT MOST 13 uppercase base-36 characters — exactly
13 whenever the random fraction prints with at least 13 base-36 digits —
and inserts it with `active = true` (`created_at = now`, no usage or
heartbeat data); the empty owner is rejected with a 400 before the store
is touched. -/
theorem createKey_spec (st : ServerState) (owner : String) (ds : List Nat)
    (now : Nat) :
    (owner = "" → createKey st owner ds now =
      (⟨400, false, none, "Nom du propriétaire requis"⟩, st)) ∧
    (generateLicenseKey ds).length = 3 + min 13 ds.length ∧
    (13 ≤ ds.length → (generateLicenseKey ds).length = 16) ∧
    ((∀ d ∈ ds, d < 36) →
      ∀ c ∈ ((ds.take 13).map base36Char).map Char.toUpper,
        isUpperBase36 c = true) ∧
    (owner ≠ "" →
      ¬(st.licenseKeys.any (fun r => r.licenseKey == generateLicenseKey ds)) = true →
      createKey st owner ds now =
        (⟨200, true, some (generateLicenseKey ds), "Clé créée avec succès"⟩,
         { st with licenseKeys := st.licenseKeys ++
             [⟨generateLicenseKey ds, owner, true, now, none, none, none⟩] })) := by
  have hlen : (generateLicenseKey ds).length = 3 + min 13 ds.length := by
    show (generateLicenseKey ds).data.length = _
    rw [show (generateLicenseKey ds).data = (generateLicenseKey ds).toList from rfl,
      generateLicenseKey_toList]
    simp [List.length_take]
    omega
  refine ⟨?_, hlen, ?_, ?_, ?_⟩
  · intro howner
    unfold createKey
    rw [if_pos howner]
  · intro h13
    rw [hlen, Nat.min_eq_left h13]
  · intro hds c hc
    simp only [List.mem_map] at hc
    obtain ⟨b, ⟨d, hd, hb⟩, hcb⟩ := hc
    subst hcb
    subst hb
    exact base36Char_upper d (hds d (List.mem_of_mem_take hd))
  · intro howner hfree
    unfold createKey
    rw [if_neg howner, if_neg hfree]

/-- Witness for C8 (amended): a 13-digit draw yields a 16-character key,
all of whose post-`TW-` characters are uppercase base-36, and creation on
the empty store inserts it active; the empty owner is a 400. -/
theorem createKey_spec_witness :
    createKey stEmpty "" [1] 3 =
      (⟨400, false, none, "Nom du propriétaire requis"⟩, stEmpty) ∧
    (generateLicenseKey [35, 0, 1, 2, 3, 4, 5, 6, 7, 8, 9, 10, 11]).length = 16 ∧
    (∀ c ∈ ((([35, 0, 1, 2, 3, 4, 5, 6, 7, 8, 9, 10, 11] : List Nat).take 13).map
        base36Char).map Char.toUpper, isUpperBase36 c = true) ∧
    createKey stEmpty "Alice" [35, 0, 1, 2, 3, 4, 5, 6, 7, 8, 9, 10, 11] 3 =
      (⟨200, true, some (generateLicenseKey [35, 0, 1, 2, 3, 4, 5, 6, 7, 8, 9, 10, 11]),
        "Clé créée avec succès"⟩,
       { stEmpty with licenseKeys :=
           stEmpty.licenseKeys ++
             [⟨generateLicenseKey [35, 0, 1, 2, 3, 4, 5, 6, 7, 8, 9, 10, 11],
               "Alice", true, 3, none, none, none⟩] }) :=
  ⟨(createKey_spec stEmpty "" [1] 3).1 rfl,
   (createKey_spec stEmpty "x" [35, 0, 1, 2, 3, 4, 5, 6, 7, 8, 9, 10, 11] 3).2.2.1
      (by decide),
   (createKey_spec stEmpty "x" [35, 0, 1, 2, 3, 4, 5, 6, 7, 8, 9, 10, 11] 3).2.2.2.1
      (by decide),
   (createKey_spec stEmpty "Alice" [35, 0, 1, 2, 3, 4, 5, 6, 7, 8, 9, 10, 11] 3).2.2.2.2
      (by decide) (by simp [stEmpty])⟩

/-- The journal rows `reset-comments` keeps: everything that is not a
`comment_posted` event of the given key. -/
def nonCommentEvents (st : ServerState) (k : String) : List AccessEvent :=
  st.accessLogs.filter
    (fun e => ¬(e.licenseKey == k && e.action == "comment_posted"))

/-- C9: `reset-comments` deletes exactly the `comment_posted` events of
the given key: the response carries the exact number removed (the same
count the stats endpoints compute), the remaining journal is the original
one with precisely those events filtered out (every other event — other
actions of the same key and all events of other keys — survives, in
order), and no other table changes. -/
theorem resetComments_spec (st : ServerState) (k : String) (hk : k ≠ "") :
    (resetComments st k).1 =
      ⟨200, true,
       toString (countByAction st k "comment_posted") ++ " commentaire(s) supprimé(s)",
       some (countByAction st k "comment_posted")⟩ ∧
    (resetComments st k).2 = { st with accessLogs := nonCommentEvents st k } ∧
    (∀ e ∈ (resetComments st k).2.accessLogs,
      ¬(e.licenseKey = k ∧ e.action = "comment_posted")) ∧
    (∀ e ∈ st.accessLogs, ¬(e.licenseKey = k ∧ e.action = "comment_posted") →
      e ∈ (resetComments st k).2.accessLogs) := by
  have hres : resetComments st k =
      (⟨200, true,
        toString (countByAction st k "comment_posted") ++ " commentaire(s) supprimé(s)",
        some (countByAction st k "comment_posted")⟩,
       { st with accessLogs := nonCommentEvents st k }) := by
    unfold resetComments
    rw [if_neg hk]
    exact rfl
  have hsnd : (resetComments st k).2.accessLogs = nonCommentEvents st k := by
    rw [hres]
  refine ⟨by rw [hres], by rw [hres], ?_, ?_⟩
  · intro e he
    rw [hsnd] at he
    have hp : ¬((e.licenseKey == k && e.action == "comment_posted") = true) :=
      of_decide_eq_true ((List.mem_filter.mp he).2)
    rintro ⟨h1, h2⟩
    exact hp (by simp [h1, h2])
  · intro e he hne
    rw [hsnd]
    apply List.mem_filter.mpr
    refine ⟨he, decide_eq_true ?_⟩
    intro hb
    simp only [Bool.and_eq_true, beq_iff_eq] at hb
    exact hne hb

/-- A concrete journal used by the C9 witness: two comment events and a
verify event for `TW-A`, one comment event for `TW-B`. -/
def stLogs : ServerState :=
  ⟨[], [⟨"TW-A", "comment_posted", "success", none, 1⟩,
        ⟨"TW-A", "verify", "success", none, 2⟩,
        ⟨"TW-A", "comment_posted", "success", none, 3⟩,
        ⟨"TW-B", "comment_posted", "success", none, 4⟩], [], [], []⟩

/-- Witness for C9: resetting `TW-A` reports 2 deletions and keeps exactly
the verify event of `TW-A` and the comment event of `TW-B`. -/
theorem resetComments_spec_witness :
    (resetComments stLogs "TW-A").1 =
      ⟨200, true,
       toString (countByAction stLogs "TW-A" "comment_posted") ++ " commentaire(s) supprimé(s)",
       some (countByAction stLogs "TW-A" "comment_posted")⟩ ∧
    (resetComments stLogs "TW-A").2 =
      { stLogs with accessLogs := nonCommentEvents stLogs "TW-A" } ∧
    countByAction stLogs "TW-A" "comment_posted" = 2 ∧
    (resetComments stLogs "TW-A").2.accessLogs =
      [⟨"TW-A", "verify", "success", none, 2⟩,
       ⟨"TW-B", "comment_posted", "success", none, 4⟩] :=
  ⟨(resetComments_spec stLogs "TW-A" (by decide)).1,
   (resetComments_spec stLogs "TW-A" (by decide)).2.1,
   by decide, by decide⟩

/-- C10: when the credentials match no row of `users` but do match a row
of the legacy `guest_users` table, login succeeds with the hard-coded role
`guest` — a role outside `{creator, admin, va}` — carries no license key,
and stamps that guest row's `last_login` with the current time. -/
theorem guest_login_spec (st : ServerState) (username password : String)
    (now : Nat)
    (hu : st.users.find?
      (fun q => q.username == username && q.password == password) = none)
    (g : GuestRow)
    (hg : st.guestUsers.find?
      (fun q => q.username == username && q.password == password) = some g) :
    login st username password now =
      (⟨true, some "guest", some username, none, none⟩,
       { st with guestUsers := st.guestUsers.map (fun q =>
           if q.username == username then { q with lastLogin := some now }
           else q) }) := by
  unfold login
  rw [hu, hg]
  exact rfl

/-- Witness for C10: `gus`/`gpw` matches only the guest table of
`stUsers`; login succeeds with role `guest` and stamps the guest row. -/
theorem guest_login_spec_witness :
    login stUsers "gus" "gpw" 12 =
      (⟨true, some "guest", some "gus", none, none⟩,
       { stUsers with guestUsers := stUsers.guestUsers.map (fun q =>
           if q.username == "gus" then { q with lastLogin := some 12 }
           else q) }) :=
  guest_login_spec stUsers "gus" "gpw" 12 (by rfl) ⟨"gus", "gpw", 3, none⟩
    (by rfl)

end LicenseServer
